import Mathlib

/-!
Verification of the RapidResponse emergency-response system.

The definitions below are a shallow embedding of the Python sources:
`services/classification/emergency_classifier.py`,
`services/data_collection/apify_service.py`,
`services/notification/notification_service.py`,
`services/emergency_coordinator.py` and `main.py`.
Python dicts with fixed keys become structures or association lists,
floats become rationals, fallible calls become `Option`/`Except`,
and the database session becomes an explicit `DbState` value.
-/

/-! ## Required-Service Resolver (EmergencyClassifier.get_required_services) -/

/-- `services[key] = True` on an association list with boolean values:
the entry whose key matches is set to `true`, all others are unchanged
(mirrors a Python dict item assignment on an existing key). -/
def setService (l : List (String × Bool)) (key : String) : List (String × Bool) :=
  l.map fun p => if p.1 = key then (p.1, true) else p

/-- The initial `services` dict of `get_required_services`, in Python
insertion order. -/
def initialServices : List (String × Bool) :=
  [("fire", false), ("medical", false), ("police", false), ("rescue", false)]

/-- `EmergencyClassifier.get_required_services`: the base if/elif chain on
the emergency type followed by the `confidence > 0.8` escalation block. -/
def get_required_services (emergency_type : String) (confidence : ℚ) :
    List (String × Bool) :=
  let services :=
    if emergency_type = "FIRE" then setService initialServices "fire"
    else if emergency_type = "MEDICAL" then setService initialServices "medical"
    else if emergency_type = "CRIME" then setService initialServices "police"
    else if emergency_type = "NATURAL_DISASTER" then
      setService (setService (setService initialServices "rescue") "fire") "medical"
    else if emergency_type = "TRAFFIC" then
      setService (setService initialServices "police") "medical"
    else initialServices
  if confidence > mkRat 8 10 then
    if emergency_type = "FIRE" then setService (setService services "rescue") "medical"
    else if emergency_type = "MEDICAL" then setService services "rescue"
    else if emergency_type = "CRIME" then setService services "medical"
    else services
  else services

/-- Modelled from the spec: the base rule table (type → services). -/
def specBaseTable (t : String) : List String :=
  if t = "FIRE" then ["fire"]
  else if t = "MEDICAL" then ["medical"]
  else if t = "CRIME" then ["police"]
  else if t = "NATURAL_DISASTER" then ["rescue", "fire", "medical"]
  else if t = "TRAFFIC" then ["police", "medical"]
  else []

/-- Modelled from the spec: the confidence-escalation sets. -/
def specEscalation (t : String) : List String :=
  if t = "FIRE" then ["rescue", "medical"]
  else if t = "MEDICAL" then ["rescue"]
  else if t = "CRIME" then ["medical"]
  else []

/-- Modelled from the spec: the Required-Service Resolver as the spec words
it — the fixed-key boolean map over {fire, medical, police, rescue} whose
true keys are the union of the base table and, when confidence > 0.8, the
escalation set. -/
def specRequiredServices (t : String) (c : ℚ) : List (String × Bool) :=
  let enabled := specBaseTable t ++ (if c > mkRat 8 10 then specEscalation t else [])
  [("fire", decide ("fire" ∈ enabled)),
   ("medical", decide ("medical" ∈ enabled)),
   ("police", decide ("police" ∈ enabled)),
   ("rescue", decide ("rescue" ∈ enabled))]

lemma get_required_services_eq_spec (t : String) (c : ℚ) :
    get_required_services t c = specRequiredServices t c := by
  unfold get_required_services specRequiredServices specBaseTable specEscalation
    initialServices setService
  split_ifs <;> rfl

/-- The escalation threshold written `0.8` in the source is the rational
`mkRat 8 10` the definitions above use. -/
lemma threshold_eq : mkRat 8 10 = (0.8 : ℚ) := by
  norm_num [Rat.mkRat_eq_div]

/-- The set of services enabled by the spec table is monotone in the
confidence value. -/
lemma mem_enabled_mono (t : String) {c c' : ℚ} (h : c ≤ c') {s : String}
    (hs : s ∈ specBaseTable t ++ (if c > mkRat 8 10 then specEscalation t else [])) :
    s ∈ specBaseTable t ++ (if c' > mkRat 8 10 then specEscalation t else []) := by
  rcases List.mem_append.1 hs with hb | he
  · exact List.mem_append_left _ hb
  · by_cases hc : c > mkRat 8 10
    · rw [if_pos (lt_of_lt_of_le hc h)]
      rw [if_pos hc] at he
      exact List.mem_append_right _ he
    · rw [if_neg hc] at he
      simp at he

/-! ## Context enrichment (ApifyDataCollector) -/

/-- Successful payload of the `apify/weather` actor (`run["data"]`). -/
structure WeatherRaw where
  temperature : ℚ
  conditions : String
  windSpeed : ℚ
  visibility : ℚ
deriving DecidableEq

/-- The dict returned by `ApifyDataCollector._get_weather_data`. -/
structure WeatherData where
  temperature : Option ℚ
  conditions : String
  wind_speed : Option ℚ
  visibility : Option ℚ
deriving DecidableEq

/-- `_get_weather_data`: on success the actor fields are repackaged; on any
failure the documented minimal default is returned. -/
def get_weather_data : Option WeatherRaw → WeatherData
  | some d => ⟨some d.temperature, d.conditions, some d.windSpeed, some d.visibility⟩
  | none => ⟨none, "unknown", none, none⟩

/-- Successful payload of the `apify/traffic` actor. -/
structure TrafficRaw where
  congestionLevel : String
  averageSpeed : ℚ
  incidents : List String
deriving DecidableEq

/-- The dict returned by `ApifyDataCollector._get_traffic_data`. -/
structure TrafficData where
  congestion_level : String
  average_speed : Option ℚ
  incidents : List String
deriving DecidableEq

/-- `_get_traffic_data`: success repackages the actor fields; failure returns
the documented minimal default. -/
def get_traffic_data : Option TrafficRaw → TrafficData
  | some d => ⟨d.congestionLevel, some d.averageSpeed, d.incidents⟩
  | none => ⟨"unknown", none, []⟩

/-- `_get_facilities_data`: dispatches on the emergency type to one facility
lookup (`_get_hospitals` / `_get_fire_stations` / `_get_police_stations`),
each of which returns `[]` on its own failure; other types produce an empty
dict. The result is the merged facilities dict as a key/value list. -/
def get_facilities_data (hospitals fire_stations police_stations : Option (List String))
    (emergency_type : String) : List (String × List String) :=
  if emergency_type = "MEDICAL" then [("hospitals", hospitals.getD [])]
  else if emergency_type = "FIRE" then [("fire_stations", fire_stations.getD [])]
  else if emergency_type = "POLICE" then [("police_stations", police_stations.getD [])]
  else []

/-- The dict built by `get_emergency_context`:
`{"weather": ..., "traffic": ..., **facilities}`. -/
structure EmergencyContext where
  weather : WeatherData
  traffic : TrafficData
  facilities : List (String × List String)
deriving DecidableEq

/-- `ApifyDataCollector.get_emergency_context`: the three sub-queries run
(in the source, concurrently via `asyncio.gather`; each catches its own
failure) and their results are merged. Each sub-query outcome is passed in
as `none` (provider failure) or `some` payload. -/
def get_emergency_context (w : Option WeatherRaw) (t : Option TrafficRaw)
    (hospitals fire_stations police_stations : Option (List String))
    (emergency_type : String) : EmergencyContext :=
  ⟨get_weather_data w, get_traffic_data t,
   get_facilities_data hospitals fire_stations police_stations emergency_type⟩

/-! ## Intake pipeline (EmergencyCoordinator.process_emergency) -/

/-- Result dict of `SpeechService.transcribe`. -/
structure TranscriptionResult where
  text : String
  language : String
  duration : ℚ
deriving DecidableEq

/-- Result dict of `TranslationService.detect_language`. -/
structure DetectResult where
  language : String
  confidence : ℚ
deriving DecidableEq

/-- Result dict of `TranslationService.translate` (the fields the
coordinator reads). -/
structure TranslationResult where
  translated_text : String
  detected_language : String
deriving DecidableEq

/-- Result dict of `EmergencyClassifier.classify`. -/
structure Classification where
  type : String
  confidence : ℚ
  priority : String
deriving DecidableEq

/-- Python `str.lower()` (character-wise lowering, as applied to language
codes). -/
def strLower (s : String) : String :=
  String.mk (s.data.map Char.toLower)

/-- `TranslationService.is_translation_needed`:
`detected_language.lower() != "en"`. -/
def is_translation_needed (detected_language : String) : Bool :=
  strLower detected_language ≠ "en"

/-- The external collaborators of the pipeline, as outcome functions: a
`none` result models that provider call raising, audio bytes are modelled
as strings. The context sub-query outcomes are per-request constants. -/
structure Providers where
  transcribe : String → Option TranscriptionResult
  detect_language : String → Option DetectResult
  translate : String → Option TranslationResult
  classify : String → Option Classification
  weather : Option WeatherRaw
  traffic : Option TrafficRaw
  hospitals : Option (List String)
  fire_stations : Option (List String)
  police_stations : Option (List String)

/-- The distinct exception sites of `process_emergency` (the source wraps
each in `Exception(f"Failed to process emergency: ...")`). -/
inductive PipelineError
  | noTextInput
  | transcriptionFailed
  | detectionFailed
  | translationFailed
  | classificationFailed
deriving DecidableEq

/-- `str(e)` of the wrapped coordinator exception, as surfaced to the
caller of the endpoint. -/
def pipeline_error_message : PipelineError → String
  | .noTextInput => "Failed to process emergency: No text input provided"
  | .transcriptionFailed => "Failed to process emergency: Failed to transcribe audio"
  | .detectionFailed => "Failed to process emergency: Language detection failed"
  | .translationFailed => "Failed to process emergency: Translation failed"
  | .classificationFailed => "Failed to process emergency: Classification failed"

/-- Location dict (`{"lat": ..., "lon": ...}`). -/
structure Location where
  lat : ℚ
  lon : ℚ
deriving DecidableEq

/-- The `details` dict assembled by the coordinator. Its fields are exactly
the keys the source writes (`original_text`, `location`, `confidence`,
`required_services`, `context`). -/
structure EmergencyDetails where
  original_text : String
  location : Option Location
  confidence : ℚ
  required_services : List (String × Bool)
  context : Option EmergencyContext
deriving DecidableEq

/-- The response dict of `process_emergency`. -/
structure ResponsePlan where
  type : String
  priority : String
  details : EmergencyDetails
deriving DecidableEq

/-- Python truthiness of an optional string (both `None` and `""` are
falsy). Audio bytes and text strings go through this in the source's
`if audio and not text:` / `if not text:` checks. -/
def truthy : Option String → Bool
  | none => false
  | some s => !(s == "")

/-- `EmergencyCoordinator.process_emergency`. Transcription runs only when
audio is truthy and text is not; then the no-text guard; then language
detection, conditional translation (the translated text replaces `text`),
classification, the Required-Service Resolver, and context enrichment when
a location is given. -/
def process_emergency (env : Providers) (text audio : Option String)
    (location : Option Location) : Except PipelineError ResponsePlan :=
  match (if truthy audio && !truthy text then
           match env.transcribe (audio.getD "") with
           | some r => Except.ok (some r.text)
           | none => Except.error PipelineError.transcriptionFailed
         else Except.ok text) with
  | .error e => .error e
  | .ok t? =>
    if truthy t? then
      match env.detect_language (t?.getD "") with
      | none => .error .detectionFailed
      | some lang =>
        match (if is_translation_needed lang.language then
                 match env.translate (t?.getD "") with
                 | some tr => Except.ok tr.translated_text
                 | none => Except.error PipelineError.translationFailed
               else Except.ok (t?.getD "")) with
        | .error e => .error e
        | .ok t1 =>
          match env.classify t1 with
          | none => .error .classificationFailed
          | some c =>
            .ok ⟨c.type, c.priority,
                 ⟨t1, location, c.confidence,
                  get_required_services c.type c.confidence,
                  location.map (fun _ =>
                    get_emergency_context env.weather env.traffic env.hospitals
                      env.fire_stations env.police_stations c.type)⟩⟩
    else .error .noTextInput

/-! ## Database model and endpoints (database/models.py, main.py) -/

/-- `EmergencyStatus` enum. -/
inductive EmergencyStatus
  | ACTIVE
  | RESOLVED
  | CANCELLED
deriving DecidableEq

/-- A row of the `emergencies` table (fields `main.py` reads or writes). -/
structure EmergencyRec where
  id : Nat
  emergency_type : String
  priority_level : String
  status : EmergencyStatus
  location_lat : Option ℚ
  location_lon : Option ℚ
  response_plan : Option ResponsePlan
  estimated_response_time : Option ℤ
  actual_response_time : Option ℤ
  notes : Option String
  created_at : ℚ
  updated_at : ℚ
deriving DecidableEq

/-- A row of the `notifications` table. -/
structure NotificationRec where
  emergency_id : Option Nat
  recipient_type : String
  recipient_id : String
  message : String
  status : String
deriving DecidableEq

/-- A row of the `emergency_status_updates` table. -/
structure StatusUpdateRec where
  emergency_id : Nat
  old_status : EmergencyStatus
  new_status : EmergencyStatus
  notes : Option String
deriving DecidableEq

/-- A row of the `notification_subscriptions` table. -/
structure SubscriptionRec where
  subscriber_type : String
  subscriber_id : String
  notification_type : String
  channel : String
deriving DecidableEq

/-- The persistent state the endpoints read and write. -/
structure DbState where
  emergencies : List EmergencyRec
  notifications : List NotificationRec
  status_updates : List StatusUpdateRec
  subscriptions : List SubscriptionRec
deriving DecidableEq

/-- `NotificationService.send_notification`: prints the payload and returns
`True`; it touches no stored subscriptions and creates no rows. -/
def send_notification (channel : String) (data : String) (db : DbState) :
    Bool × DbState :=
  (true, db)

/-- The notifications stored for one recipient id. -/
def notifications_for (db : DbState) (recipient_id : String) : List NotificationRec :=
  db.notifications.filter fun n => n.recipient_id == recipient_id

/-- Python `int()` applied to a rational: truncation toward zero. -/
def pyInt (q : ℚ) : ℤ :=
  if q < 0 then -(Int.floor (-q)) else Int.floor q

/-- `HTTPException` as the endpoint surfaces it. -/
structure HttpError where
  status : Nat
  detail : String
deriving DecidableEq

/-- `str()` of a raised `HTTPException` (status and detail). -/
def http_exception_str (status : Nat) (detail : String) : String :=
  toString status ++ ": " ++ detail

/-- Failures inside the `try` block of `report_emergency`: an explicit
`HTTPException` raise, or a coordinator exception. -/
inductive InnerError
  | http (status : Nat) (detail : String)
  | pipeline (e : PipelineError)
deriving DecidableEq

/-- Response body of `report_emergency`. -/
structure ReportResponse where
  emergency_type : String
  priority_level : String
  response_plan : ResponsePlan
  estimated_response_time : Option ℤ
deriving DecidableEq

/-- Body of the `try` block of `report_emergency` (`main.py`): the
missing-input guard raises `HTTPException(400)`; otherwise the coordinator
runs, and on success one `Emergency` row (status ACTIVE) is committed and a
notification is sent. `now` is the commit timestamp, `newId` the fresh
uuid. -/
def report_emergency_inner (env : Providers) (audio text : Option String)
    (lat lon : Option ℚ) (now : ℚ) (newId : Nat) (db : DbState) :
    Except InnerError (ReportResponse × DbState) :=
  if audio.isNone && !truthy text then
    .error (.http 400 "Either audio or text must be provided")
  else
    let location := match lat, lon with
      | some la, some lo => some (⟨la, lo⟩ : Location)
      | _, _ => none
    match process_emergency env text audio location with
    | .error e => .error (.pipeline e)
    | .ok response =>
      let emergency : EmergencyRec :=
        { id := newId
          emergency_type := response.type
          priority_level := response.priority
          status := .ACTIVE
          location_lat := lat
          location_lon := lon
          response_plan := some response
          estimated_response_time := none
          actual_response_time := none
          notes := none
          created_at := now
          updated_at := now }
      let db1 := { db with emergencies := db.emergencies ++ [emergency] }
      let (_, db2) := send_notification "emergency" response.type db1
      .ok (⟨response.type, response.priority, response, none⟩, db2)

/-- `report_emergency` (`main.py`): any exception from the `try` block —
including the endpoint's own `HTTPException(400)` — is caught by the
blanket `except`, the session is rolled back, and an HTTP 500 with
`str(e)` is raised. -/
def report_emergency (env : Providers) (audio text : Option String)
    (lat lon : Option ℚ) (now : ℚ) (newId : Nat) (db : DbState) :
    Except HttpError ReportResponse × DbState :=
  match report_emergency_inner env audio text lat lon now newId db with
  | .ok (resp, db') => (.ok resp, db')
  | .error (.http s d) => (.error ⟨500, http_exception_str s d⟩, db)
  | .error (.pipeline e) => (.error ⟨500, pipeline_error_message e⟩, db)

/-- Replace the first row with the given id (the SQLAlchemy
`query(...).first()` row that `update_emergency` mutates in place). -/
def replaceFirst (l : List EmergencyRec) (id : Nat) (r : EmergencyRec) :
    List EmergencyRec :=
  match l with
  | [] => []
  | e :: rest => if e.id == id then r :: rest else e :: replaceFirst rest id r

/-- The first stored emergency with the given id. -/
def findEmergency (db : DbState) (id : Nat) : Option EmergencyRec :=
  db.emergencies.find? fun e => e.id == id

/-- Response body of `update_emergency`. -/
structure UpdateResponse where
  message : String
deriving DecidableEq

/-- `update_emergency` (`main.py`): 404 when the id is unknown; otherwise
status, notes and `updated_at` are overwritten unconditionally — there is
no check of the current status — and when the new status is RESOLVED,
`actual_response_time` is set to
`int((now - created_at).total_seconds() / 60)`. A status-update
notification is then sent (which stores nothing). No `EmergencyStatusUpdate`
row is created. Times are in seconds. -/
def update_emergency (emergency_id : Nat) (status : EmergencyStatus)
    (notes : Option String) (now : ℚ) (db : DbState) :
    Except HttpError UpdateResponse × DbState :=
  match db.emergencies.find? (fun e => e.id == emergency_id) with
  | none => (.error ⟨404, "Emergency not found"⟩, db)
  | some emergency =>
    let updated : EmergencyRec :=
      { emergency with
        status := status
        notes := notes
        updated_at := now
        actual_response_time :=
          if status = .RESOLVED then
            some (pyInt ((now - emergency.created_at) / 60))
          else emergency.actual_response_time }
    let db1 := { db with emergencies := replaceFirst db.emergencies emergency_id updated }
    let (_, db2) := send_notification "status_update" "" db1
    (.ok ⟨"Emergency updated successfully"⟩, db2)

/-! ## Concrete scenarios used to evaluate the endpoints -/

/-- A provider environment where every collaborator succeeds (the classify
outcome matches the source's mock classifier). -/
def env0 : Providers :=
  { transcribe := fun _ => some ⟨"transcribed emergency text", "en", 5⟩
    detect_language := fun _ => some ⟨"en", 1⟩
    translate := fun _ => some ⟨"generic translation", "en"⟩
    classify := fun _ => some ⟨"FIRE", mkRat 19 20, "HIGH"⟩
    weather := some ⟨20, "clear", 5, 10⟩
    traffic := some ⟨"low", 40, []⟩
    hospitals := some ["City Hospital"]
    fire_stations := some ["Station 1"]
    police_stations := some ["Precinct 9"] }

/-- Environment whose Classification Provider is down. -/
def env3 : Providers := { env0 with classify := fun _ => none }

/-- Environment whose Transcription Provider returns a distinctive text. -/
def env6 : Providers :=
  { env0 with transcribe := fun _ => some ⟨"transcribed B text", "en", 5⟩ }

/-- Environment that detects Spanish and translates to a distinctive text. -/
def env9 : Providers :=
  { env0 with
    detect_language := fun _ => some ⟨"es", 1⟩
    translate := fun _ => some ⟨"translated english text", "es"⟩ }

/-- Environment whose weather sub-query fails. -/
def env8 : Providers := { env0 with weather := none }

/-- A stored emergency created at time 0, still ACTIVE. -/
def e0 : EmergencyRec :=
  ⟨0, "FIRE", "HIGH", .ACTIVE, none, none, none, none, none, none, 0, 0⟩

/-- Store holding just `e0`. -/
def db0 : DbState := ⟨[e0], [], [], []⟩

/-- Store after resolving `e0` at t = 90 s. -/
def db1 : DbState := (update_emergency 0 .RESOLVED none 90 db0).2

/-- Store after a second RESOLVED update at t = 150 s. -/
def db2r : DbState := (update_emergency 0 .RESOLVED none 150 db1).2

/-- `e0` already in the terminal state RESOLVED. -/
def e1 : EmergencyRec := { e0 with status := .RESOLVED }

/-- Store holding just the terminal `e1`. -/
def dbResolved : DbState := ⟨[e1], [], [], []⟩

/-- Empty store. -/
def dbEmpty : DbState := ⟨[], [], [], []⟩

/-- Store holding one subscription of subscriber `u1` to `emergency`
events over email, and nothing else. -/
def c4db : DbState := ⟨[], [], [], [⟨"user", "u1", "emergency", "email"⟩]⟩

/-! ## Helper lemmas -/

lemma find?_replaceFirst (l : List EmergencyRec) (id : Nat) (r : EmergencyRec)
    (hr : (r.id == id) = true)
    (hl : (l.find? (fun x => x.id == id)).isSome = true) :
    (replaceFirst l id r).find? (fun x => x.id == id) = some r := by
  induction l with
  | nil => simp [List.find?] at hl
  | cons a rest ih =>
    by_cases ha : (a.id == id) = true
    · rw [replaceFirst, if_pos ha]
      simp [List.find?, hr]
    · rw [replaceFirst, if_neg ha]
      rw [List.find?_cons_of_neg _ (by simpa using ha)] at hl ⊢
      exact ih hl

/-- Evaluation of the pipeline on a text-only report: the transcription
stage is skipped and the stages from language detection onwards run on the
provided text. -/
lemma process_emergency_some_text (env : Providers) (s : String)
    (loc : Option Location) (hs : s ≠ "") :
    process_emergency env (some s) none loc =
      match env.detect_language s with
      | none => .error .detectionFailed
      | some lang =>
        match (if is_translation_needed lang.language then
                 match env.translate s with
                 | some tr => Except.ok tr.translated_text
                 | none => Except.error PipelineError.translationFailed
               else Except.ok s) with
        | .error e => .error e
        | .ok t1 =>
          match env.classify t1 with
          | none => .error .classificationFailed
          | some c =>
            .ok ⟨c.type, c.priority,
                 ⟨t1, loc, c.confidence, get_required_services c.type c.confidence,
                  loc.map (fun _ => get_emergency_context env.weather env.traffic
                    env.hospitals env.fire_stations env.police_stations c.type)⟩⟩ := by
  have hseq : (s == "") = false := by simpa using hs
  unfold process_emergency
  simp [truthy, hseq]

/-- With the Classification Provider failing on every input, no run of the
pipeline can produce a success value. -/
lemma process_classify_none (env : Providers) (hcl : ∀ t, env.classify t = none)
    (text audio : Option String) (loc : Option Location) (p : ResponsePlan) :
    process_emergency env text audio loc ≠ Except.ok p := by
  intro hok
  unfold process_emergency at hok
  split at hok
  · exact Except.noConfusion hok
  · split at hok
    · split at hok
      · exact Except.noConfusion hok
      · split at hok
        · exact Except.noConfusion hok
        · split at hok
          · exact Except.noConfusion hok
          · next c hc =>
            rw [hcl] at hc
            exact Option.noConfusion hc
    · exact Except.noConfusion hok

/-- With the Classification Provider failing on every input, the body of
the report endpoint always raises. -/
lemma report_inner_classify_none (env : Providers)
    (hcl : ∀ t, env.classify t = none) (audio text : Option String)
    (lat lon : Option ℚ) (now : ℚ) (newId : Nat) (db : DbState) :
    ∃ ie, report_emergency_inner env audio text lat lon now newId db =
      Except.error ie := by
  unfold report_emergency_inner
  by_cases hcond : (audio.isNone && !truthy text) = true
  · rw [if_pos hcond]
    exact ⟨_, rfl⟩
  · rw [if_neg hcond]
    dsimp only
    cases hp : process_emergency env text audio
        (match lat, lon with
         | some la, some lo => some ⟨la, lo⟩
         | _, _ => none) with
    | error e => exact ⟨_, rfl⟩
    | ok p => exact absurd hp (process_classify_none env hcl text audio _ p)

/-! ## Claims -/

/-- C1: for every (emergency_type, confidence) pair,
`get_required_services` returns the fixed-key boolean map over
{fire, medical, police, rescue} equal to the union of the spec's base
table and, when confidence > 0.8, its escalation sets; in particular
(FIRE, 0.9) yields fire/rescue/medical true and police false, and
(CRIME, 0.5) yields police true and all others false. -/
theorem required_services_match_spec_table :
    (∀ t c, get_required_services t c = specRequiredServices t c) ∧
    get_required_services "FIRE" 0.9 =
      [("fire", true), ("medical", true), ("police", false), ("rescue", true)] ∧
    get_required_services "CRIME" 0.5 =
      [("fire", false), ("medical", false), ("police", true), ("rescue", false)] :=
  ⟨get_required_services_eq_spec,
   by rw [show (0.9 : ℚ) = mkRat 9 10 by norm_num [Rat.mkRat_eq_div]]; decide,
   by rw [show (0.5 : ℚ) = mkRat 1 2 by norm_num [Rat.mkRat_eq_div]]; decide⟩

/-- C10: the Required-Service Resolver is monotone in confidence — any
service enabled at confidence `c` stays enabled at any `c' ≥ c` — and its
output always has exactly the four keys fire, medical, police, rescue in
that order. -/
theorem required_services_monotone_and_fixed_keys :
    (∀ t (c c' : ℚ), c ≤ c' → ∀ k : String,
        List.lookup k (get_required_services t c) = some true →
        List.lookup k (get_required_services t c') = some true) ∧
    (∀ t c, (get_required_services t c).map Prod.fst =
        ["fire", "medical", "police", "rescue"]) := by
  constructor
  · intro t c c' hcc k hk
    rw [get_required_services_eq_spec] at hk ⊢
    unfold specRequiredServices at hk ⊢
    by_cases h1 : (k == "fire") = true
    · simp only [List.lookup, h1] at hk ⊢
      refine congrArg some (decide_eq_true ?_)
      exact mem_enabled_mono t hcc (of_decide_eq_true (Option.some.inj hk))
    · simp only [List.lookup, h1] at hk ⊢
      by_cases h2 : (k == "medical") = true
      · simp only [h2] at hk ⊢
        refine congrArg some (decide_eq_true ?_)
        exact mem_enabled_mono t hcc (of_decide_eq_true (Option.some.inj hk))
      · simp only [h2] at hk ⊢
        by_cases h3 : (k == "police") = true
        · simp only [h3] at hk ⊢
          refine congrArg some (decide_eq_true ?_)
          exact mem_enabled_mono t hcc (of_decide_eq_true (Option.some.inj hk))
        · simp only [h3] at hk ⊢
          by_cases h4 : (k == "rescue") = true
          · simp only [h4] at hk ⊢
            refine congrArg some (decide_eq_true ?_)
            exact mem_enabled_mono t hcc (of_decide_eq_true (Option.some.inj hk))
          · simp only [h4] at hk
            exact absurd hk (by simp [List.lookup])
  · intro t c
    rw [get_required_services_eq_spec]
    rfl

/-- Witness for C10 at a concrete input: the fire service enabled for FIRE
at confidence 0.5 is still enabled at confidence 0.9. -/
theorem required_services_monotone_witness :
    List.lookup "fire" (get_required_services "FIRE" (mkRat 9 10)) = some true :=
  required_services_monotone_and_fixed_keys.1 "FIRE" (mkRat 1 2) (mkRat 9 10)
    (by norm_num [Rat.mkRat_eq_div]) "fire" (by decide)

/-- C8: each failed context sub-query resolves to its documented default
for that sub-query only — a weather failure yields
`conditions = "unknown"` with the traffic and facilities results unchanged,
a traffic failure yields its minimal default with the other two unchanged,
a facilities failure yields the empty facility list — and a report whose
weather sub-query fails still succeeds end-to-end with the other context
fields populated. -/
theorem enrichment_failures_degrade_independently :
    (∀ t h f p ty,
      (get_emergency_context none t h f p ty).weather = ⟨none, "unknown", none, none⟩ ∧
      ∀ w, (get_emergency_context none t h f p ty).traffic =
             (get_emergency_context w t h f p ty).traffic ∧
           (get_emergency_context none t h f p ty).facilities =
             (get_emergency_context w t h f p ty).facilities) ∧
    (∀ w h f p ty,
      (get_emergency_context w none h f p ty).traffic = ⟨"unknown", none, []⟩ ∧
      ∀ t, (get_emergency_context w none h f p ty).weather =
             (get_emergency_context w t h f p ty).weather ∧
           (get_emergency_context w none h f p ty).facilities =
             (get_emergency_context w t h f p ty).facilities) ∧
    (∀ w t f p,
      (get_emergency_context w t none f p "MEDICAL").facilities = [("hospitals", [])] ∧
      ∀ h, (get_emergency_context w t h f p "MEDICAL").weather =
             (get_emergency_context w t none f p "MEDICAL").weather ∧
           (get_emergency_context w t h f p "MEDICAL").traffic =
             (get_emergency_context w t none f p "MEDICAL").traffic) ∧
    ((report_emergency env8 none (some "There is a fire") (some 1) (some 2) 0 7
        dbEmpty).1.map
      (fun resp => resp.response_plan.details.context.map
        (fun c => (c.weather.conditions, c.traffic))) =
      .ok (some ("unknown", ⟨"low", some 40, []⟩)) ∧
     (report_emergency env8 none (some "There is a fire") (some 1) (some 2) 0 7
        dbEmpty).2.emergencies.length = 1) := by
  refine ⟨?_, ?_, ?_, by rfl, by decide⟩
  · intro t h f p ty
    exact ⟨rfl, fun w => ⟨rfl, rfl⟩⟩
  · intro w h f p ty
    exact ⟨rfl, fun t => ⟨rfl, rfl⟩⟩
  · intro w t f p
    exact ⟨rfl, fun h => ⟨rfl, rfl⟩⟩

/-- C4 counterexample: with exactly one stored subscription whose
`notification_type` equals the published event type, publishing the event
creates zero Notifications for that subscriber — not the one pending
Notification the claim requires. -/
theorem fanout_no_notification_created :
    (send_notification "emergency" "payload" c4db).1 = true ∧
    c4db.subscriptions = [⟨"user", "u1", "emergency", "email"⟩] ∧
    notifications_for (send_notification "emergency" "payload" c4db).2 "u1" = [] ∧
    ¬ (notifications_for (send_notification "emergency" "payload" c4db).2 "u1").length
        = 1 := by
  refine ⟨rfl, rfl, rfl, by decide⟩

/-- C4 amended: `send_notification` consults no stored subscriptions and
creates no Notification rows at all — it returns `True` and leaves the
store untouched, so every subscriber (whether or not it holds a matching
subscription) receives zero Notifications from a publish. -/
theorem send_notification_stores_nothing :
    ∀ channel data db recipient,
      (send_notification channel data db).1 = true ∧
      notifications_for (send_notification channel data db).2 recipient =
        notifications_for db recipient ∧
      (send_notification channel data db).2 = db :=
  fun _ _ _ _ => ⟨rfl, rfl, rfl⟩

/-- C5 (code slip): a report with neither text nor audio is rejected with
the explicit client error `HTTPException(400, "Either audio or text must
be provided")` inside the handler's `try` block, but the handler's blanket
`except` converts it to a 500 server error; no Emergency row is
persisted. -/
theorem report_missing_input_mapped_to_500 :
    report_emergency_inner env0 none none none none 0 7 dbEmpty =
      .error (.http 400 "Either audio or text must be provided") ∧
    (report_emergency env0 none none none none 0 7 dbEmpty).1 =
      .error ⟨500, http_exception_str 400 "Either audio or text must be provided"⟩ ∧
    (report_emergency env0 none none none none 0 7 dbEmpty).2 = dbEmpty :=
  ⟨rfl, rfl, rfl⟩

/-- C2 counterexample: after an emergency reaches the terminal state
RESOLVED (first `updateStatus` call), a second `updateStatus` call with the
terminal target CANCELLED is not rejected — it succeeds and overwrites the
status — and the store holds zero EmergencyStatusUpdate rows, not exactly
one. -/
theorem terminal_status_update_accepted :
    (update_emergency 0 .CANCELLED none 120 db1).1 =
      .ok ⟨"Emergency updated successfully"⟩ ∧
    (findEmergency (update_emergency 0 .CANCELLED none 120 db1).2 0).map
      (fun e => e.status) = some .CANCELLED ∧
    (update_emergency 0 .CANCELLED none 120 db1).2.status_updates = [] ∧
    ¬ (update_emergency 0 .CANCELLED none 120 db1).2.status_updates.length = 1 :=
  ⟨rfl, rfl, rfl, by decide⟩

/-- C2 amended: `update_emergency` never inspects the current status: any
call on a stored id — terminal or not — succeeds, overwrites the status
with the requested one, and appends no EmergencyStatusUpdate row at all. -/
theorem update_status_unconditional (db : DbState) (id : Nat)
    (st : EmergencyStatus) (notes : Option String) (now : ℚ) (e : EmergencyRec)
    (h : findEmergency db id = some e) :
    (update_emergency id st notes now db).1 =
      .ok ⟨"Emergency updated successfully"⟩ ∧
    (update_emergency id st notes now db).2.status_updates = db.status_updates ∧
    (findEmergency (update_emergency id st notes now db).2 id).map
      (fun x => x.status) = some st := by
  unfold findEmergency at h
  have hid : (e.id == id) = true := by simpa using List.find?_some h
  unfold update_emergency
  rw [h]
  refine ⟨rfl, rfl, ?_⟩
  unfold findEmergency
  dsimp only [send_notification]
  rw [find?_replaceFirst db.emergencies id]
  · rfl
  · exact hid
  · rw [h]; rfl

/-- Witness for C2 amended: updating the already-RESOLVED `e1` to
CANCELLED succeeds. -/
theorem update_status_unconditional_witness :
    (update_emergency 0 .CANCELLED none 120 dbResolved).1 =
      .ok ⟨"Emergency updated successfully"⟩ :=
  (update_status_unconditional dbResolved 0 .CANCELLED none 120 e1 rfl).1

/-- C7 counterexample: resolving at t = 90 s stores
`actual_response_time = 1`; a later RESOLVED update at t = 150 s
recomputes it to `2` — the value is not preserved once set. -/
theorem resolved_time_recomputed :
    (findEmergency db1 0).map (fun e => e.actual_response_time) = some (some 1) ∧
    (findEmergency db2r 0).map (fun e => e.actual_response_time) = some (some 2) ∧
    ¬ ((1 : ℤ) = 2) := by
  refine ⟨?_, ?_, by decide⟩
  · simp only [db1, db0, e0, update_emergency, findEmergency, replaceFirst,
      send_notification, List.find?, pyInt]
    norm_num
  · simp only [db2r, db1, db0, e0, update_emergency, findEmergency, replaceFirst,
      send_notification, List.find?, pyInt]
    norm_num

/-- C7 amended: every update whose target status is RESOLVED sets
`actual_response_time` to the elapsed whole minutes from creation to now,
recomputing it from scratch (any previously stored value is overwritten);
updates to any other status leave the stored value unchanged; and for
nonnegative elapsed time the Python truncation is exactly the floor
(whole minutes). -/
theorem resolved_sets_elapsed_minutes (db : DbState) (id : Nat)
    (notes : Option String) (now : ℚ) (e : EmergencyRec)
    (h : findEmergency db id = some e) :
    (findEmergency (update_emergency id .RESOLVED notes now db).2 id =
      some { e with
             status := .RESOLVED
             notes := notes
             updated_at := now
             actual_response_time := some (pyInt ((now - e.created_at) / 60)) }) ∧
    (∀ st, st ≠ EmergencyStatus.RESOLVED →
      (findEmergency (update_emergency id st notes now db).2 id).map
        (fun x => x.actual_response_time) = some e.actual_response_time) ∧
    (∀ q : ℚ, 0 ≤ q → pyInt q = Int.floor q) := by
  unfold findEmergency at h
  have hid : (e.id == id) = true := by simpa using List.find?_some h
  refine ⟨?_, ?_, ?_⟩
  · unfold update_emergency
    rw [h]
    unfold findEmergency
    dsimp only [send_notification]
    rw [find?_replaceFirst db.emergencies id]
    · simp
    · exact hid
    · rw [h]; rfl
  · intro st hst
    unfold update_emergency
    rw [h]
    unfold findEmergency
    dsimp only [send_notification]
    rw [find?_replaceFirst db.emergencies id]
    · simp [hst]
    · exact hid
    · rw [h]; rfl
  · intro q hq
    unfold pyInt
    rw [if_neg (not_lt.2 hq)]

/-- Witness for C7 amended: resolving `e0` (created at 0) at t = 90 s
stores the truncated elapsed minutes. -/
theorem resolved_sets_elapsed_minutes_witness :
    findEmergency (update_emergency 0 .RESOLVED none 90 db0).2 0 =
      some { e0 with
             status := .RESOLVED
             notes := none
             updated_at := 90
             actual_response_time := some (pyInt ((90 - e0.created_at) / 60)) } :=
  (resolved_sets_elapsed_minutes db0 0 none 90 e0 rfl).1

/-- C3: when the Classification Provider fails, the pipeline can never
succeed — at the classification stage the run aborts with the
classification failure — and the report endpoint returns an error with the
database left exactly as it was: zero Emergency rows are created. -/
theorem classification_failure_aborts (env : Providers)
    (hcl : ∀ t, env.classify t = none) :
    (∀ text audio loc p, process_emergency env text audio loc ≠ Except.ok p) ∧
    (∀ s d loc, s ≠ "" → env.detect_language s = some d →
      is_translation_needed d.language = false →
      process_emergency env (some s) none loc =
        Except.error .classificationFailed) ∧
    (∀ audio text lat lon now newId db,
      (∃ err, (report_emergency env audio text lat lon now newId db).1 =
        Except.error err) ∧
      (report_emergency env audio text lat lon now newId db).2 = db) := by
  refine ⟨process_classify_none env hcl, ?_, ?_⟩
  · intro s d loc hs h1 h2
    rw [process_emergency_some_text env s loc hs, h1]
    simp [h2, hcl]
  · intro audio text lat lon now newId db
    obtain ⟨ie, hie⟩ :=
      report_inner_classify_none env hcl audio text lat lon now newId db
    unfold report_emergency
    rw [hie]
    cases ie <;> exact ⟨⟨_, rfl⟩, rfl⟩

/-- Witness for C3: with the concrete failing-classifier environment
`env3`, a text report leaves the empty store empty. -/
theorem classification_failure_aborts_witness :
    (report_emergency env3 none (some "the building is burning") none none 0 7
      dbEmpty).2 = dbEmpty :=
  ((classification_failure_aborts env3 (fun _ => rfl)).2.2 none
    (some "the building is burning") none none 0 7 dbEmpty).2

/-- C6 counterexample: with both text and audio supplied and a healthy
Transcription Provider that returns "transcribed B text", the pipeline
output carries the provided text, not the transcription output — audio
does not take precedence. -/
theorem provided_text_wins_over_audio :
    ((process_emergency env6 (some "house on fire") (some "audiobytes")
        none).map (fun p => p.details.original_text)).toOption =
      some "house on fire" ∧
    ¬ (((process_emergency env6 (some "house on fire") (some "audiobytes")
        none).map (fun p => p.details.original_text)).toOption =
      some "transcribed B text") :=
  ⟨rfl, by decide⟩

/-- C6 amended: a report carrying both text and audio is accepted, but the
provided text takes precedence — the result is independent of the
Transcription Provider — and transcription output is used (as the text for
all downstream stages) only when no text is given; when no text is given
and transcription fails, the request aborts. -/
theorem text_precedence_over_audio :
    (∀ env f s audio loc, s ≠ "" →
      process_emergency { env with transcribe := f } (some s) audio loc =
        process_emergency env (some s) audio loc) ∧
    (∀ (env : Providers) a r loc, env.transcribe a = some r → a ≠ "" →
      process_emergency env none (some a) loc =
        process_emergency env (some r.text) none loc) ∧
    (∀ (env : Providers) a loc, env.transcribe a = none → a ≠ "" →
      process_emergency env none (some a) loc =
        Except.error .transcriptionFailed) := by
  refine ⟨?_, ?_, ?_⟩
  · intro env f s audio loc hs
    have hseq : (s == "") = false := by simpa using hs
    unfold process_emergency
    simp [truthy, hseq]
  · intro env a r loc hr ha
    have haeq : (a == "") = false := by simpa using ha
    unfold process_emergency
    simp [truthy, haeq, hr]
  · intro env a loc hn ha
    have haeq : (a == "") = false := by simpa using ha
    unfold process_emergency
    simp [truthy, haeq, hn]

/-- Witness for C6 amended: with no text, `env0`'s transcription output is
what the pipeline processes. -/
theorem text_precedence_over_audio_witness :
    process_emergency env0 none (some "audio bytes") none =
      process_emergency env0 (some "transcribed emergency text") none none :=
  text_precedence_over_audio.2.1 env0 "audio bytes"
    ⟨"transcribed emergency text", "en", 5⟩ none rfl (by decide)

/-- C9 counterexample: for a Spanish report, the stored
`details.original_text` is the translated text, not the pre-translation
original; the original text is not retained. -/
theorem original_text_not_retained :
    ((process_emergency env9 (some "texto original") none none).map
      (fun p => p.details.original_text)).toOption =
      some "translated english text" ∧
    ¬ (((process_emergency env9 (some "texto original") none none).map
      (fun p => p.details.original_text)).toOption = some "texto original") :=
  ⟨rfl, by decide⟩

/-- C9 amended: when the detected language needs translation, the
translated text is what classification receives and what every downstream
field is computed from, and the assembled record stores that translated
text in `details.original_text`; the pre-translation text and the detected
language do not appear in the record (the `details` payload has no
language field at all). -/
theorem translated_text_used_downstream (env : Providers) (s : String)
    (d : DetectResult) (tr : TranslationResult) (c : Classification)
    (loc : Option Location) (hs : s ≠ "")
    (h1 : env.detect_language s = some d)
    (h2 : is_translation_needed d.language = true)
    (h3 : env.translate s = some tr)
    (h4 : env.classify tr.translated_text = some c) :
    process_emergency env (some s) none loc =
      Except.ok ⟨c.type, c.priority,
        ⟨tr.translated_text, loc, c.confidence,
         get_required_services c.type c.confidence,
         loc.map (fun _ => get_emergency_context env.weather env.traffic
           env.hospitals env.fire_stations env.police_stations c.type)⟩⟩ := by
  rw [process_emergency_some_text env s loc hs, h1]
  simp [h2, h3, h4]

/-- Witness for C9 amended: the concrete Spanish-report run. -/
theorem translated_text_used_downstream_witness :
    process_emergency env9 (some "texto original") none none =
      Except.ok ⟨"FIRE", "HIGH",
        ⟨"translated english text", none, mkRat 19 20,
         get_required_services "FIRE" (mkRat 19 20), none⟩⟩ :=
  translated_text_used_downstream env9 "texto original" ⟨"es", 1⟩
    ⟨"translated english text", "es"⟩ ⟨"FIRE", mkRat 19 20, "HIGH"⟩ none
    (by decide) rfl (by decide) rfl rfl
